import Mathlib

/-!
Verification of the NCN information bot (src/bot.py) against its
natural-language specification.  The Python source is shallowly embedded:
each handler method becomes a pure Lean function from an `Update` to an
`Except PyErr Rendered`; attribute access on Python `None` is modelled as
the error `PyErr.attributeError`; the callback-data dictionary dispatch and
the command-handler registration are modelled as ordered key lookups.
-/

/-- A dataclass holding one feature entry (title, description, icon),
mirroring `NCNFeature` in the source. -/
structure NCNFeature where
  title : String
  description : String
  icon : String
deriving DecidableEq, Repr

/-- The static content catalogs constructed in `NCNComponent.__init__`:
a description string, the key-feature list, the use-case list and the
technical-spec table (a Python dict iterated in insertion order, hence a
list of pairs here). -/
structure NCNComponent where
  description : String
  key_features : List NCNFeature
  use_cases : List String
  technical_specs : List (String × String)
deriving DecidableEq, Repr

/-- The catalog values assigned in `NCNComponent.__init__`. -/
def defaultNCN : NCNComponent :=
  { description := "\n🚀 **NCN (NVAI Computing Network)**\n*Secure, Independent Computing Network Powered by NVAI Technology*\n\nNCN represents a revolutionary leap in decentralized computing infrastructure, combining cutting-edge NVAI (Neural Virtual AI) technology with blockchain security to create a truly autonomous computing ecosystem.\n"
    key_features :=
      [ { title := "🔒 Quantum-Secure Architecture"
          description := "Military-grade encryption with quantum-resistant protocols ensuring unprecedented data protection"
          icon := "🛡️" }
      , { title := "🧠 NVAI Neural Processing"
          description := "Distributed neural network processing that learns and adapts in real-time across the network"
          icon := "⚡" }
      , { title := "🌐 Autonomous Operation"
          description := "Self-healing, self-optimizing network that operates independently of centralized control"
          icon := "🤖" }
      , { title := "⚡ Edge Computing First"
          description := "Ultra-low latency processing at the network edge for real-time applications"
          icon := "💨" }
      , { title := "📊 Data Sovereignty"
          description := "Complete user control over data with zero-knowledge proof verification"
          icon := "🔐" }
      , { title := "♻️ Energy Efficient"
          description := "Green computing optimized for minimal energy consumption with maximum performance"
          icon := "🌿" } ]
    use_cases :=
      [ "🔬 **Scientific Research**: Distributed computing for complex simulations"
      , "🏥 **Healthcare**: Secure medical data processing and AI diagnostics"
      , "🏦 **Financial Systems**: Ultra-secure transaction processing"
      , "🎮 **Gaming & Metaverse**: Low-latency, high-performance computing"
      , "🔐 **Government & Defense**: Sovereign computing infrastructure"
      , "🤖 **AI Training**: Distributed model training with privacy protection" ]
    technical_specs :=
      [ ("Network Type", "Decentralized Mesh Network")
      , ("Consensus Mechanism", "Proof-of-Compute (PoC)")
      , ("Encryption", "Post-Quantum Cryptography")
      , ("Latency", "< 5ms (edge-to-edge)")
      , ("Uptime", "99.999% SLA")
      , ("Scalability", "Unlimited horizontal scaling")
      , ("Compliance", "GDPR, HIPAA, SOC2 compliant") ] }

/-- An inline keyboard button: either a callback button carrying an opaque
token (`callback_data`) or a URL button. -/
inductive Button where
  | cb (label : String) (data : String)
  | url (label : String) (target : String)
deriving DecidableEq, Repr

/-- An inline keyboard: rows of buttons, order significant. -/
abbrev Keyboard := List (List Button)

/-- Whether a reply is delivered by editing the pressed message
(`edit_message_text`) or by sending a new one (`reply_...`). -/
inductive SendMode where
  | edit
  | reply
deriving DecidableEq, Repr

/-- A rendered screen: display text, attached keyboard, delivery mode. -/
structure Rendered where
  text : String
  keyboard : Keyboard
  mode : SendMode
deriving DecidableEq, Repr

/-- The only exception the embedded handlers can raise: attribute access on
Python `None` (e.g. `update.message.reply_html` when `update.message` is
`None`, as it is for every callback-query update). -/
inductive PyErr where
  | attributeError
deriving DecidableEq, Repr

/-- The Telegram user behind an update: numeric id and first name
(`last_name` omitted; `mention_html` then uses the first name alone). -/
structure User where
  id : Int
  first_name : String
deriving DecidableEq, Repr

/-- The callback query attached to a button-press update; `data` is the
token string the client echoes back. -/
structure CallbackQuery where
  data : String
deriving DecidableEq, Repr

/-- An incoming update.  `message` is present (`some ()`) exactly for
message/command updates and absent (`none`) for callback-query updates;
`callback_query` is present exactly for button presses. -/
structure Update where
  message : Option Unit
  callback_query : Option CallbackQuery
  effective_user : User
deriving DecidableEq, Repr

/-- `telegram.User.mention_html()`: an HTML link embedding the numeric user
id in the URL and the user's name as link text (HTML escaping of the name
is elided; the names used below contain no HTML metacharacters). -/
def mention_html (u : User) : String :=
  "<a href=\"tg://user?id=" ++ toString u.id ++ "\">" ++ u.first_name ++ "</a>"

/-- The `/start` welcome text (`NCNBot.start`): an f-string interpolating
`user.mention_html()` and `self.ncn.description`. -/
def welcomeText (c : NCNComponent) (u : User) : String :=
  "\n🌟 Welcome " ++ mention_html u ++ " to the NCN Information Portal! 🌟\n\n"
    ++ c.description
    ++ "\n\n📋 *Available Commands:*\n/start - Welcome message\n/features - Key features of NCN\n/usecases - Real-world applications\n/techspecs - Technical specifications\n/whitepaper - Access technical documentation\n/network - Current network status\n/contact - Contact information\n/help - Show all commands\n\n💡 *Quick Actions:* Use the buttons below to explore!\n        "

/-- The features screen text (`NCNBot.features`): header plus one block per
catalog entry, in catalog order. -/
def featuresText (c : NCNComponent) : String :=
  c.key_features.foldl
    (fun m f => m ++ f.icon ++ " **" ++ f.title ++ "**\n" ++ "   " ++ f.description ++ "\n\n")
    "🚀 **NCN Key Features**\n\n"

/-- The use-cases screen text (`NCNBot.usecases`): header, one bullet per
catalog entry in order, then a fixed additional-applications block. -/
def usecasesText (c : NCNComponent) : String :=
  (c.use_cases.foldl (fun m uc => m ++ "• " ++ uc ++ "\n")
    "🎯 **NCN Use Cases & Applications**\n\n")
    ++ "\n💡 *Additional Applications:*\n- Autonomous Vehicle Networks\n- Smart City Infrastructure\n- Decentralized AI Marketplaces\n- Privacy-Preserving Analytics\n- Edge AI Processing\n"

/-- The tech-specs screen text (`NCNBot.techspecs`): header, one line per
spec-table entry in insertion order, then a fixed capabilities block. -/
def techspecsText (c : NCNComponent) : String :=
  (c.technical_specs.foldl (fun m kv => m ++ "**" ++ kv.1 ++ ":** " ++ kv.2 ++ "\n")
    "🔧 **NCN Technical Specifications**\n\n")
    ++ "\n🔬 **Advanced Capabilities:**\n- Neural Load Balancing\n- Adaptive Resource Allocation\n- Cross-Chain Interoperability\n- Zero-Trust Security Model\n- Predictive Maintenance AI\n"

/-- The whitepaper screen text (`NCNBot.whitepaper`), a fixed string. -/
def whitepaperText : String :=
  "\n📚 **NCN Technical Documentation**\n\n*Available Resources:*\n\n📄 **White Paper v2.1** \n- Complete technical architecture\n- Security protocols\n- Implementation roadmap\n- Economic model\n\n🔬 **Technical Briefs**\n- NVAI Neural Processing Deep Dive\n- Quantum Security Implementation\n- Network Consensus Mechanism\n- Performance Benchmarks\n\n📊 **Research Papers**\n- \"Decentralized Neural Networks\" (IEEE 2024)\n- \"Quantum-Resistant Mesh Networks\" (ACM 2024)\n- \"Autonomous Computing Ecosystems\" (Nature 2024)\n\n🌐 **Access:** Documentation is available through our secure portal.\nPlease contact the NCN team for access credentials.\n        "

/-- The network-status screen text (`NCNBot.network_status`), a fixed string. -/
def networkText : String :=
  "\n📊 **NCN Network Status** - Live Dashboard\n\n🟢 **Network Status:** ONLINE\n⏱️ **Last Updated:** Just now\n\n📈 **Network Metrics:**\n• Active Nodes: 1,247\n• Network Load: 42%\n• Average Latency: 3.2ms\n• Uptime: 99.98%\n• Data Processed Today: 14.7 PB\n\n🌍 **Global Distribution:**\n• North America: 312 nodes\n• Europe: 287 nodes\n• Asia Pacific: 415 nodes\n• Other Regions: 233 nodes\n\n🔒 **Security Status:**\n• All Systems: SECURE\n• Threat Level: LOW\n• Last Incident: 30 days ago\n\n⚡ **Performance:**\n• Compute Power: 14.2 EFLOPS\n• Storage: 47.8 EB\n• Bandwidth: 82.4 Tbps\n        "

/-- The contact screen text (`NCNBot.contact`), a fixed string. -/
def contactText : String :=
  "\n📞 **Contact NCN Team**\n\n*Official Channels:*\n\n🌐 **Website:** https://ncn-network.io\n📧 **Email:** contact@ncn-network.io\n💼 **Business Inquiries:** partners@ncn-network.io\n🔧 **Technical Support:** support@ncn-network.io\n\n📍 **Office Locations:**\n• **HQ:** Zurich, Switzerland\n• **R&D:** Singapore\n• **Operations:** Delaware, USA\n\n📅 **Schedule a Meeting:**\nhttps://calendly.com/ncn-team\n\n📱 **Social Media:**\n• Twitter: @NCN_Network\n• LinkedIn: NVAI Computing Network\n• GitHub: ncn-org\n\n⚠️ *Security Notice:* Only use official channels for communication.\n        "

/-- The `/help` text (`NCNBot.help_command`); its admin section advertises
`/admin`, `/broadcast` and `/stats`. -/
def helpText : String :=
  "\n🤖 **NCN Bot Commands**\n\n*Main Commands:*\n/start - Welcome message and main menu\n/features - Key features of NCN\n/usecases - Real-world applications\n/techspecs - Technical specifications\n/whitepaper - Access technical documentation\n/network - Current network status\n/contact - Contact information\n/help - This help message\n\n*Admin Commands:*\n/admin - Admin panel (restricted)\n/broadcast - Send announcement (admin only)\n/stats - Bot statistics\n\n💡 *Tip:* Use the interactive buttons for quick navigation!\n        "

/-- The statistics text sent to authorized users (`NCNBot.stats`). -/
def statsText : String :=
  "\n📊 **Bot Statistics**\n        \n• Uptime: Since deployment\n• Total Users: Collecting data...\n• Active Today: Monitoring...\n• Commands Processed: Counting...\n\n*More stats coming soon!*\n        "

/-- The fixed refusal sent to non-admin callers of `/stats`. -/
def adminRefusalText : String :=
  "❌ This command is for administrators only."

/-- The generic unknown-command reply (`NCNBot.unknown`). -/
def unknownText : String :=
  "Sorry, I didn\x27t understand that command. Try /help to see available commands."

/-- Main-menu keyboard built in `NCNBot.start`. -/
def startKeyboard : Keyboard :=
  [ [ .cb "🚀 Features" "features", .cb "🔧 Tech Specs" "techspecs" ]
  , [ .cb "🎯 Use Cases" "usecases", .cb "📊 Network" "network" ]
  , [ .cb "📚 Whitepaper" "whitepaper", .cb "📞 Contact" "contact" ] ]

/-- Keyboard of the features screen: back row first, then navigation row. -/
def featuresKeyboard : Keyboard :=
  [ [ .cb "◀️ Back to Main" "main_menu" ]
  , [ .cb "🎯 Use Cases" "usecases" ] ]

/-- Keyboard of the use-cases screen. -/
def usecasesKeyboard : Keyboard :=
  [ [ .cb "◀️ Back to Features" "features" ]
  , [ .cb "🔧 Tech Specs" "techspecs" ] ]

/-- Keyboard of the tech-specs screen. -/
def techspecsKeyboard : Keyboard :=
  [ [ .cb "◀️ Back to Use Cases" "usecases" ]
  , [ .cb "📊 Network Status" "network" ] ]

/-- Keyboard of the whitepaper screen. -/
def whitepaperKeyboard : Keyboard :=
  [ [ .cb "📞 Contact Team" "contact" ]
  , [ .cb "◀️ Back to Main" "main_menu" ] ]

/-- Keyboard of the network-status screen. -/
def networkKeyboard : Keyboard :=
  [ [ .cb "🔄 Refresh" "network" ]
  , [ .cb "◀️ Back to Main" "main_menu" ] ]

/-- Keyboard of the contact screen (URL button plus back button). -/
def contactKeyboard : Keyboard :=
  [ [ .url "🌐 Visit Website" "https://ncn-network.io" ]
  , [ .cb "◀️ Back to Main" "main_menu" ] ]

/-- The `if update.callback_query: edit ... else: update.message.reply ...`
tail shared verbatim by the six content handlers.  When neither field is
present the Python would dereference `None`. -/
def contentScreen (text : String) (kb : Keyboard) (u : Update) : Except PyErr Rendered :=
  if u.callback_query.isSome then .ok ⟨text, kb, .edit⟩
  else
    match u.message with
    | some _ => .ok ⟨text, kb, .reply⟩
    | none => .error .attributeError

/-- `NCNBot.start`: builds the welcome text, then unconditionally calls
`update.message.reply_html` — there is no callback-query branch, so on a
button-press update (`message = None`) this raises `AttributeError`. -/
def startHandler (comp : NCNComponent) (u : Update) : Except PyErr Rendered :=
  match u.message with
  | some _ => .ok ⟨welcomeText comp u.effective_user, startKeyboard, .reply⟩
  | none => .error .attributeError

/-- `NCNBot.features`. -/
def featuresHandler (comp : NCNComponent) (u : Update) : Except PyErr Rendered :=
  contentScreen (featuresText comp) featuresKeyboard u

/-- `NCNBot.usecases`. -/
def usecasesHandler (comp : NCNComponent) (u : Update) : Except PyErr Rendered :=
  contentScreen (usecasesText comp) usecasesKeyboard u

/-- `NCNBot.techspecs`. -/
def techspecsHandler (comp : NCNComponent) (u : Update) : Except PyErr Rendered :=
  contentScreen (techspecsText comp) techspecsKeyboard u

/-- `NCNBot.whitepaper`. -/
def whitepaperHandler (_ : NCNComponent) (u : Update) : Except PyErr Rendered :=
  contentScreen whitepaperText whitepaperKeyboard u

/-- `NCNBot.network_status`. -/
def networkHandler (_ : NCNComponent) (u : Update) : Except PyErr Rendered :=
  contentScreen networkText networkKeyboard u

/-- `NCNBot.contact`. -/
def contactHandler (_ : NCNComponent) (u : Update) : Except PyErr Rendered :=
  contentScreen contactText contactKeyboard u

/-- `NCNBot.help_command`: `update.message.reply_markdown`, no keyboard. -/
def helpHandler (u : Update) : Except PyErr Rendered :=
  match u.message with
  | some _ => .ok ⟨helpText, [], .reply⟩
  | none => .error .attributeError

/-- `NCNBot.unknown`: the generic unknown-command reply. -/
def unknownHandler (u : Update) : Except PyErr Rendered :=
  match u.message with
  | some _ => .ok ⟨unknownText, [], .reply⟩
  | none => .error .attributeError

/-- `NCNBot.stats`: replies with the fixed refusal unless
`update.effective_user.id` is in the configured `ADMIN_IDS`. -/
def statsHandler (ids : List Int) (u : Update) : Except PyErr Rendered :=
  if u.effective_user.id ∉ ids then
    match u.message with
    | some _ => .ok ⟨adminRefusalText, [], .reply⟩
    | none => .error .attributeError
  else
    match u.message with
    | some _ => .ok ⟨statsText, [], .reply⟩
    | none => .error .attributeError

/-- Names for the bot's handler methods. -/
inductive BotHandler where
  | start
  | features
  | usecases
  | techspecs
  | whitepaper
  | network_status
  | contact
  | help_command
  | stats
  | unknown
deriving DecidableEq, Repr

/-- Invoke a handler method. -/
def runHandler : BotHandler → NCNComponent → List Int → Update → Except PyErr Rendered
  | .start, comp, _, u => startHandler comp u
  | .features, comp, _, u => featuresHandler comp u
  | .usecases, comp, _, u => usecasesHandler comp u
  | .techspecs, comp, _, u => techspecsHandler comp u
  | .whitepaper, comp, _, u => whitepaperHandler comp u
  | .network_status, comp, _, u => networkHandler comp u
  | .contact, comp, _, u => contactHandler comp u
  | .help_command, _, _, u => helpHandler u
  | .stats, _, ids, u => statsHandler ids u
  | .unknown, _, _, u => unknownHandler u

/-- First-match key lookup, modelling both the `handlers` dict lookup in
`button_handler` and the ordered `CommandHandler` registrations. -/
def lookupKey (k : String) : List (String × BotHandler) → Option BotHandler
  | [] => none
  | (k2, h) :: rest => if k = k2 then some h else lookupKey k rest

/-- The `handlers` dictionary in `NCNBot.button_handler`. -/
def callbackHandlers : List (String × BotHandler) :=
  [ ("features", .features)
  , ("usecases", .usecases)
  , ("techspecs", .techspecs)
  , ("whitepaper", .whitepaper)
  , ("network", .network_status)
  , ("contact", .contact)
  , ("main_menu", .start) ]

/-- The dispatcher over callback tokens: `handlers[data]` when present. -/
def dispatch (d : String) : Option BotHandler :=
  lookupKey d callbackHandlers

/-- `NCNBot.button_handler`: answers the query, then invokes the handler
mapped to `query.data` if the token is recognized; otherwise it falls
through and does nothing (`.ok none` = no screen rendered). -/
def button_handler (comp : NCNComponent) (ids : List Int) (u : Update) :
    Except PyErr (Option Rendered) :=
  match u.callback_query with
  | none => .error .attributeError
  | some q =>
    match dispatch q.data with
    | some h => (runHandler h comp ids u).map some
    | none => .ok none

/-- The `CommandHandler` registrations in `NCNBot.setup_handlers`, in
registration order. -/
def commandHandlers : List (String × BotHandler) :=
  [ ("start", .start)
  , ("features", .features)
  , ("usecases", .usecases)
  , ("techspecs", .techspecs)
  , ("whitepaper", .whitepaper)
  , ("network", .network_status)
  , ("contact", .contact)
  , ("help", .help_command)
  , ("stats", .stats) ]

/-- Route an incoming `/cmd` message: first matching registered handler,
else the `MessageHandler(filters.COMMAND, unknown)` catch-all. -/
def commandDispatch (cmd : String) : BotHandler :=
  (lookupKey cmd commandHandlers).getD .unknown

/-- Handle an incoming command message end to end. -/
def handleCommand (comp : NCNComponent) (ids : List Int) (cmd : String) (u : Update) :
    Except PyErr Rendered :=
  runHandler (commandDispatch cmd) comp ids u

/-- An incoming event: a command message or a button press. -/
inductive Event where
  | command (cmd : String) (u : Update)
  | button (u : Update)
deriving DecidableEq, Repr

/-- One request/response cycle with explicit catalog state: the handlers of
the source never assign to `self.ncn`, so the state passed on is the state
received. -/
def handleEvent (comp : NCNComponent) (ids : List Int) :
    Event → Except PyErr (Option Rendered) × NCNComponent
  | .command cmd u => ((handleCommand comp ids cmd u).map some, comp)
  | .button u => (button_handler comp ids u, comp)

/-- Fold a sequence of events through the catalog state. -/
def runEvents (comp : NCNComponent) (ids : List Int) : List Event → NCNComponent
  | [] => comp
  | e :: es => runEvents (handleEvent comp ids e).2 ids es

/-- A command-message update from a given user. -/
def msgUpdate (u : User) : Update :=
  { message := some (), callback_query := none, effective_user := u }

/-- A button-press update (callback query) carrying token `d`: as for every
Telegram callback update, `update.message` is `None`. -/
def mkCb (d : String) (u : User) : Update :=
  { message := none, callback_query := some ⟨d⟩, effective_user := u }

/-- A fixed user for concrete evaluations. -/
def someUser : User := ⟨7, "Ann"⟩

/-- All keyboards the bot ever renders (main menu plus content screens). -/
def allKeyboards : List Keyboard :=
  [ startKeyboard, featuresKeyboard, usecasesKeyboard, techspecsKeyboard
  , whitepaperKeyboard, networkKeyboard, contactKeyboard ]

/-- The content-screen keyboards (every rendered screen except the menu). -/
def contentKeyboards : List Keyboard :=
  [ featuresKeyboard, usecasesKeyboard, techspecsKeyboard
  , whitepaperKeyboard, networkKeyboard, contactKeyboard ]

/-- The navigation target each button label announces, read off the labels
in the source: this is the spec-side notion of the button's intended
target screen, to be compared with what the dispatcher does. -/
def labelTarget (l : String) : Option BotHandler :=
  if l = "🚀 Features" then some .features
  else if l = "🔧 Tech Specs" then some .techspecs
  else if l = "🎯 Use Cases" then some .usecases
  else if l = "📊 Network" then some .network_status
  else if l = "📊 Network Status" then some .network_status
  else if l = "🔄 Refresh" then some .network_status
  else if l = "📚 Whitepaper" then some .whitepaper
  else if l = "📞 Contact" then some .contact
  else if l = "📞 Contact Team" then some .contact
  else if l = "◀️ Back to Main" then some .start
  else if l = "◀️ Back to Features" then some .features
  else if l = "◀️ Back to Use Cases" then some .usecases
  else none

/-- A callback button decodes correctly when the dispatcher resolves its
token to the screen its label announces; URL buttons carry no token. -/
def buttonDecodesOk : Button → Bool
  | .cb l d => decide (dispatch d = labelTarget l) && (dispatch d).isSome
  | .url _ _ => true

/-- Whether a button is a back button (label starts with the back arrow). -/
def isBackButton : Button → Bool
  | .cb l _ => List.isPrefixOf "◀️ Back".data l.data
  | .url _ _ => false

/-- Whether a keyboard row contains a back button. -/
def isBackRow (row : List Button) : Bool :=
  row.any isBackButton

/-- Number of rows of a keyboard containing a back button. -/
def backRowCount (kb : Keyboard) : Nat :=
  (kb.filter isBackRow).length

/-- The layout the claim asserts of every content screen: exactly one back
row, placed last (navigation row(s) first). -/
def claimLayout (kb : Keyboard) : Bool :=
  (backRowCount kb == 1) && isBackRow (kb.getLastD [])

/-- Projection used to compare rendered outputs: the delivered text, when
the handler produced a screen. -/
def textOf : Except PyErr Rendered → Option String
  | .ok r => some r.text
  | .error _ => none

/-- Python `str.split(',')` on the character list: splits at every comma,
keeping empty segments; the empty string yields one empty segment. -/
def pySplitChars : List Char → List Char → List (List Char)
  | [], acc => [acc.reverse]
  | c :: cs, acc =>
    if c = ',' then acc.reverse :: pySplitChars cs []
    else pySplitChars cs (c :: acc)

/-- Python `str.split(',')`. -/
def pySplit (s : String) : List String :=
  (pySplitChars s.data []).map (fun l => ⟨l⟩)

/-- Python whitespace stripped by `str.strip()` (ASCII range). -/
def isPySpace (c : Char) : Bool :=
  c = ' ' || c = '\t' || c = '\n' || c = '\r' || c = '\x0b' || c = '\x0c'

/-- `str.strip()` on ASCII whitespace. -/
def pyStrip (s : String) : String :=
  ⟨((s.data.dropWhile isPySpace).reverse.dropWhile isPySpace).reverse⟩

/-- Numeric value of an ASCII digit. -/
def charVal (c : Char) : Nat :=
  c.toNat - 48

/-- Digit run of Python `int(s, 10)` after the first digit: further digits,
with single underscores allowed between digits only. -/
def pyIntGo : Nat → List Char → Option Nat
  | acc, [] => some acc
  | acc, c :: cs =>
    if c = '_' then
      match cs with
      | c2 :: cs2 => if c2.isDigit then pyIntGo (10 * acc + charVal c2) cs2 else none
      | [] => none
    else if c.isDigit then pyIntGo (10 * acc + charVal c) cs else none

/-- Unsigned part of Python `int(s, 10)`: at least one digit, underscores
only between digits (ASCII digits; the segment is already stripped). -/
def pyIntCore : List Char → Option Nat
  | [] => none
  | c :: cs => if c.isDigit then pyIntGo (charVal c) cs else none

/-- Python `int(s, 10)` on an already-stripped ASCII string: optional sign,
then a digit run; `none` models the `ValueError` raised otherwise. -/
def pyIntParse (s : String) : Option Int :=
  match s.data with
  | [] => none
  | c :: cs =>
    if c = '-' then (pyIntCore cs).map (fun n => -(n : Int))
    else if c = '+' then (pyIntCore cs).map (fun n => (n : Int))
    else (pyIntCore (c :: cs)).map (fun n => (n : Int))

/-- The comprehension
`[int(id.strip()) for id in admin_ids_str.split(',') if id.strip()]`:
segments whose stripped form is empty are skipped; kept segments are parsed,
a parse failure raising `ValueError` (the `.error` case). -/
def adminIdsOf : List String → Except Unit (List Int)
  | [] => .ok []
  | seg :: rest =>
    if pyStrip seg = "" then adminIdsOf rest
    else
      match pyIntParse (pyStrip seg) with
      | some n => (adminIdsOf rest).map (fun l => n :: l)
      | none => .error ()

/-- `BotConfig.ADMIN_IDS` construction: the empty string (also the default
when the variable is missing) is falsy, so the list stays `[]`; otherwise
the comprehension above runs on the comma-split segments. -/
def parseAdminIds (s : String) : Except Unit (List Int) :=
  if s = "" then .ok []
  else adminIdsOf (pySplit s)

/-- The claim's description of the configured allow-list: the integer
values of the non-empty comma-separated segments after stripping
surrounding whitespace, in their original order. -/
def adminListSpec (s : String) : List Int :=
  (((pySplit s).map pyStrip).filter (fun t => t != "")).filterMap pyIntParse

/-- Every segment of the `ADMIN_IDS` string is either blank after
stripping, or parses as an integer. -/
abbrev segmentsOk (s : String) : Prop :=
  ∀ seg ∈ pySplit s, pyStrip seg = "" ∨ (pyIntParse (pyStrip seg)).isSome = true

/-- The command names with a registered `CommandHandler`. -/
def registeredCommands : List String :=
  commandHandlers.map Prod.fst

/-! ## Helper lemmas -/

/-- A non-`stats` handler never reads the admin allow-list. -/
theorem runHandler_ignores_admin_ids (h : BotHandler) (hne : h ≠ BotHandler.stats)
    (comp : NCNComponent) (ids ids' : List Int) (u : Update) :
    runHandler h comp ids u = runHandler h comp ids' u := by
  cases h <;> first | rfl | exact absurd rfl hne

/-- Only the literal command string `stats` routes to the stats handler. -/
theorem commandDispatch_eq_stats (cmd : String) (h : commandDispatch cmd = BotHandler.stats) :
    cmd = "stats" := by
  simp only [commandDispatch, commandHandlers, lookupKey] at h
  split_ifs at h <;> first | assumption | exact absurd h (by decide)

/-- A string of the shape `page_...` differs from any string whose first
character is not `p`. -/
theorem page_append_ne (s t : String) (h : t.data.head? ≠ some 'p') :
    "page_" ++ s ≠ t := by
  intro he
  apply h
  rw [← he]
  cases s with
  | mk l => rfl

/-- Ordered lookup misses every list whose keys all differ from the key. -/
theorem lookupKey_none (k : String) (l : List (String × BotHandler))
    (h : ∀ p ∈ l, k ≠ p.1) : lookupKey k l = none := by
  induction l with
  | nil => rfl
  | cons p rest ih =>
    rw [lookupKey, if_neg (h p (List.mem_cons_self p rest))]
    exact ih fun q hq => h q (List.mem_cons_of_mem p hq)

/-- No `page_<suffix>` token is in the dispatcher's dictionary. -/
theorem dispatch_page_none (s : String) : dispatch ("page_" ++ s) = none := by
  apply lookupKey_none
  intro p hp
  fin_cases hp <;> exact page_append_ne s _ (by decide)

/-- Every event returns the catalogs it received. -/
theorem handleEvent_snd (comp : NCNComponent) (ids : List Int) (e : Event) :
    (handleEvent comp ids e).2 = comp := by
  cases e <;> rfl

/-- A whole trace of events leaves the catalogs untouched. -/
theorem runEvents_id (comp : NCNComponent) (ids : List Int) (evs : List Event) :
    runEvents comp ids evs = comp := by
  induction evs with
  | nil => rfl
  | cons e es ih =>
    rw [runEvents, handleEvent_snd]
    exact ih

/-- When every kept segment parses, the comprehension returns exactly the
parsed values of the non-empty stripped segments in order. -/
theorem adminIdsOf_ok (l : List String)
    (h : ∀ seg ∈ l, pyStrip seg = "" ∨ (pyIntParse (pyStrip seg)).isSome = true) :
    adminIdsOf l = .ok (((l.map pyStrip).filter (fun t => t != "")).filterMap pyIntParse) := by
  induction l with
  | nil => rfl
  | cons seg rest ih =>
    have hrest : ∀ x ∈ rest, pyStrip x = "" ∨ (pyIntParse (pyStrip x)).isSome = true :=
      fun x hx => h x (List.mem_cons_of_mem seg hx)
    by_cases he : pyStrip seg = ""
    · rw [adminIdsOf, if_pos he, ih hrest]
      simp [he]
    · rcases h seg (List.mem_cons_self seg rest) with h1 | h2
      · exact absurd h1 he
      · obtain ⟨n, hn⟩ := Option.isSome_iff_exists.mp h2
        rw [adminIdsOf, if_neg he, hn, ih hrest]
        simp [he, hn, Except.map]

/-- A kept segment that fails to parse raises, regardless of the rest. -/
theorem adminIdsOf_error (l : List String) (seg : String) (hmem : seg ∈ l)
    (h1 : pyStrip seg ≠ "") (h2 : pyIntParse (pyStrip seg) = none) :
    adminIdsOf l = .error () := by
  induction l with
  | nil => cases hmem
  | cons x rest ih =>
    rcases List.mem_cons.mp hmem with rfl | hmem2
    · rw [adminIdsOf, if_neg h1, h2]
    · by_cases he : pyStrip x = ""
      · rw [adminIdsOf, if_pos he]
        exact ih hmem2
      · cases hp : pyIntParse (pyStrip x) with
        | none => rw [adminIdsOf, if_neg he, hp]
        | some n =>
          rw [adminIdsOf, if_neg he, hp, ih hmem2]
          rfl

/-! ## Claim theorems -/

/-- Claim C1: the spec claims the dispatcher's contract is total — every
recognized token (features, usecases, techspecs, whitepaper, network,
contact, main_menu) pressed as a button renders a screen without raising,
and main_menu in particular renders the Menu.  On the code, a main_menu
button press raises AttributeError: `start()` unconditionally dereferences
`update.message`, which is `None` on every callback update, while the six
content tokens do render their screens. -/
theorem c1_main_menu_button_raises :
    button_handler defaultNCN [] (mkCb "main_menu" someUser) = .error .attributeError ∧
    button_handler defaultNCN [] (mkCb "features" someUser) =
      .ok (some ⟨featuresText defaultNCN, featuresKeyboard, .edit⟩) ∧
    button_handler defaultNCN [] (mkCb "usecases" someUser) =
      .ok (some ⟨usecasesText defaultNCN, usecasesKeyboard, .edit⟩) ∧
    button_handler defaultNCN [] (mkCb "techspecs" someUser) =
      .ok (some ⟨techspecsText defaultNCN, techspecsKeyboard, .edit⟩) ∧
    button_handler defaultNCN [] (mkCb "whitepaper" someUser) =
      .ok (some ⟨whitepaperText, whitepaperKeyboard, .edit⟩) ∧
    button_handler defaultNCN [] (mkCb "network" someUser) =
      .ok (some ⟨networkText, networkKeyboard, .edit⟩) ∧
    button_handler defaultNCN [] (mkCb "contact" someUser) =
      .ok (some ⟨contactText, contactKeyboard, .edit⟩) :=
  ⟨rfl, rfl, rfl, rfl, rfl, rfl, rfl⟩

/-- Claim C2 counterexample: the malformed token `page_abc` does not
resolve to the Menu screen with a notice — the button handler recognizes
nothing and renders nothing (`.ok none`), a silent no-op. -/
theorem c2_counterexample :
    button_handler defaultNCN [] (mkCb "page_abc" someUser) = .ok none := rfl

/-- Claim C2 (amended): a token outside the recognized grammar is never an
error surfaced to the caller, but it is a silent no-op: the handler answers
the callback and renders no screen at all (no Menu, no notice). -/
theorem c2_unrecognized_is_silent_noop (comp : NCNComponent) (ids : List Int)
    (u : Update) (q : CallbackQuery) (h1 : u.callback_query = some q)
    (h2 : dispatch q.data = none) :
    button_handler comp ids u = .ok none := by
  simp [button_handler, h1, h2]

/-- Witness for C2 (amended) at the concrete token `nonsense`. -/
theorem c2_witness :
    button_handler defaultNCN [] (mkCb "nonsense" someUser) = .ok none :=
  c2_unrecognized_is_silent_noop defaultNCN [] (mkCb "nonsense" someUser) ⟨"nonsense"⟩ rfl rfl

/-- Claim C3: every callback token attached to a button of any rendered
keyboard (main menu and all content screens) is recognized by the
dispatcher and resolves to exactly the screen its button label announces. -/
theorem c3_rendered_tokens_decode :
    ∀ kb ∈ allKeyboards, ∀ row ∈ kb, row.all buttonDecodesOk = true := by
  decide

/-- Witness for C3 at the first row of the main-menu keyboard. -/
theorem c3_witness :
    [Button.cb "🚀 Features" "features", Button.cb "🔧 Tech Specs" "techspecs"].all
      buttonDecodesOk = true :=
  c3_rendered_tokens_decode startKeyboard (by decide)
    [Button.cb "🚀 Features" "features", Button.cb "🔧 Tech Specs" "techspecs"] (by decide)

/-- Claim C4: for a command message, /stats yields the statistics screen
iff the caller's id is in the allow-list; an unauthorized caller never
gets an exception but exactly the fixed refusal text. -/
theorem c4_stats_authorization (ids : List Int) (u : Update) (h : u.message = some ()) :
    (statsHandler ids u = .ok ⟨statsText, [], .reply⟩ ↔ u.effective_user.id ∈ ids) ∧
    (u.effective_user.id ∉ ids → statsHandler ids u = .ok ⟨adminRefusalText, [], .reply⟩) := by
  by_cases hmem : u.effective_user.id ∈ ids
  · refine ⟨⟨fun _ => hmem, fun _ => ?_⟩, fun hn => absurd hmem hn⟩
    rw [statsHandler, if_neg (not_not_intro hmem), h]
  · have hout : statsHandler ids u = .ok ⟨adminRefusalText, [], .reply⟩ := by
      rw [statsHandler, if_pos hmem, h]
    refine ⟨⟨fun heq => ?_, fun hin => absurd hin hmem⟩, fun _ => hout⟩
    rw [hout] at heq
    injection heq with h1
    injection h1 with ht _ _
    exact absurd ht (by decide)

/-- Witness for C4 with allow-list `[5]` and caller id `5`. -/
theorem c4_witness :
    (statsHandler [5] (msgUpdate ⟨5, "Ann"⟩) = .ok ⟨statsText, [], .reply⟩ ↔
      (5 : Int) ∈ ([5] : List Int)) ∧
    ((5 : Int) ∉ ([5] : List Int) →
      statsHandler [5] (msgUpdate ⟨5, "Ann"⟩) = .ok ⟨adminRefusalText, [], .reply⟩) :=
  c4_stats_authorization [5] (msgUpdate ⟨5, "Ann"⟩) rfl

/-- Claim C5 counterexample: `page_999999` does not resolve to any List
screen (there is no pagination in this bot): the handler renders nothing. -/
theorem c5_counterexample :
    button_handler defaultNCN [] (mkCb "page_999999" someUser) = .ok none := rfl

/-- Claim C5 (amended): `page_<n>` tokens are not part of this bot's token
grammar at all — every token of that shape is unrecognized, and a button
press carrying it renders nothing (no clamping, no List screen, and also no
rejection surfaced to the caller). -/
theorem c5_page_tokens_unrecognized (comp : NCNComponent) (ids : List Int)
    (u : Update) (s : String) (h : u.callback_query = some ⟨"page_" ++ s⟩) :
    button_handler comp ids u = .ok none := by
  simp [button_handler, h, dispatch_page_none s]

/-- Witness for C5 (amended) at the concrete suffix `42`. -/
theorem c5_witness :
    button_handler defaultNCN [] (mkCb ("page_" ++ "42") someUser) = .ok none :=
  c5_page_tokens_unrecognized defaultNCN [] (mkCb ("page_" ++ "42") someUser) "42" rfl

/-- Claim C6: the catalogs are immutable after construction — every event
(command or button press) leaves the component state unchanged, so
rendering the same screen at any two points of any two event traces yields
identical output (same items in the same order). -/
theorem c6_catalogs_immutable (comp : NCNComponent) (ids : List Int)
    (evs evs' : List Event) (e : Event) :
    runEvents comp ids evs = comp ∧
    handleEvent (runEvents comp ids evs) ids e =
      handleEvent (runEvents comp ids evs') ids e := by
  refine ⟨runEvents_id comp ids evs, ?_⟩
  rw [runEvents_id, runEvents_id]

/-- Claim C7 counterexample: /start is not the statistics command, yet the
identities 1 (allow-listed) and 2 (not allow-listed), otherwise identical,
receive different rendered text, because the welcome text embeds the user
id through `mention_html`. -/
theorem c7_counterexample :
    (1 : Int) ∈ ([1] : List Int) ∧ (2 : Int) ∉ ([1] : List Int) ∧
    textOf (handleCommand defaultNCN [1] "start" (msgUpdate ⟨1, "Alex"⟩)) ≠
      textOf (handleCommand defaultNCN [1] "start" (msgUpdate ⟨2, "Alex"⟩)) :=
  ⟨by decide, by decide, by decide⟩

/-- Claim C7 (amended): no command other than /stats depends on the
allow-list: for the same user, any two allow-list configurations produce
identical text and actions.  (The /start text does vary with the identity
itself via the embedded mention — the part the counterexample refutes —
but never with allow-list membership.) -/
theorem c7_nonrestricted_ignore_allowlist (cmd : String) (comp : NCNComponent)
    (ids ids' : List Int) (u : Update) (h : cmd ≠ "stats") :
    handleCommand comp ids cmd u = handleCommand comp ids' cmd u := by
  apply runHandler_ignores_admin_ids
  intro he
  exact h (commandDispatch_eq_stats cmd he)

/-- Witness for C7 (amended): /features under allow-lists `[1]` and `[]`. -/
theorem c7_witness :
    handleCommand defaultNCN [1] "features" (msgUpdate ⟨1, "Alex"⟩) =
      handleCommand defaultNCN [] "features" (msgUpdate ⟨1, "Alex"⟩) :=
  c7_nonrestricted_ignore_allowlist "features" defaultNCN [1] [] (msgUpdate ⟨1, "Alex"⟩)
    (by decide)

/-- Claim C8 counterexample: the features screen, as rendered from a button
press, carries a keyboard whose back row comes first and whose navigation
row comes last — the claimed layout (navigation first, single back row
last) is false for it. -/
theorem c8_counterexample :
    featuresHandler defaultNCN (mkCb "features" someUser) =
      .ok ⟨featuresText defaultNCN, featuresKeyboard, .edit⟩ ∧
    claimLayout featuresKeyboard = false :=
  ⟨rfl, rfl⟩

/-- Claim C8 (amended): every content screen's keyboard has exactly one
back row; whitepaper, network and contact place it last (navigation row
first), while features, usecases and techspecs place it first (navigation
row last). -/
theorem c8_back_row_layout :
    ∀ kb ∈ contentKeyboards,
      backRowCount kb = 1 ∧
      (kb ∈ [whitepaperKeyboard, networkKeyboard, contactKeyboard] →
        isBackRow (kb.getLastD []) = true ∧ isBackRow (kb.headD []) = false) ∧
      (kb ∈ [featuresKeyboard, usecasesKeyboard, techspecsKeyboard] →
        isBackRow (kb.headD []) = true ∧ isBackRow (kb.getLastD []) = false) := by
  decide

/-- Witness for C8 (amended) at the network keyboard. -/
theorem c8_witness :
    backRowCount networkKeyboard = 1 ∧
    isBackRow (networkKeyboard.getLastD []) = true :=
  ⟨(c8_back_row_layout networkKeyboard (by decide)).1,
   ((c8_back_row_layout networkKeyboard (by decide)).2.1 (by decide)).1⟩

/-- Claim C9: the configured allow-list is the list of integer values of
the non-empty stripped comma-separated segments of ADMIN_IDS in original
order (empty segments and a missing/empty variable contribute nothing),
and any non-empty segment that `int()` cannot parse makes startup raise
instead of being skipped. -/
theorem c9_admin_ids_parsing (s : String) :
    (segmentsOk s → parseAdminIds s = .ok (adminListSpec s)) ∧
    (¬ segmentsOk s → parseAdminIds s = .error ()) := by
  constructor
  · intro h
    by_cases hs : s = ""
    · subst hs; rfl
    · rw [parseAdminIds, if_neg hs, adminListSpec]
      exact adminIdsOf_ok (pySplit s) h
  · intro h
    by_cases hs : s = ""
    · exfalso
      apply h
      intro seg hseg
      rw [hs] at hseg
      have hseg2 : seg ∈ [""] := hseg
      rw [List.mem_singleton] at hseg2
      rw [hseg2]
      exact Or.inl rfl
    · have hbad : ∃ seg ∈ pySplit s,
          pyStrip seg ≠ "" ∧ pyIntParse (pyStrip seg) = none := by
        by_contra hc
        push_neg at hc
        apply h
        intro seg hseg
        by_cases he : pyStrip seg = ""
        · exact Or.inl he
        · right
          cases hp : pyIntParse (pyStrip seg) with
          | none => exact absurd hp (hc seg hseg he)
          | some v => rfl
      obtain ⟨seg, hmem, h1, h2⟩ := hbad
      rw [parseAdminIds, if_neg hs]
      exact adminIdsOf_error (pySplit s) seg hmem h1 h2

/-- Witness for C9: a parseable ADMIN_IDS string with whitespace and empty
segments, and one with a malformed segment. -/
theorem c9_witness :
    parseAdminIds " 12, 34 ,,56" = .ok (adminListSpec " 12, 34 ,,56") ∧
    parseAdminIds "1,x" = .error () :=
  ⟨(c9_admin_ids_parsing " 12, 34 ,,56").1 (by decide),
   (c9_admin_ids_parsing "1,x").2 (by decide)⟩

set_option maxRecDepth 20000 in
/-- Claim C10: /admin and /broadcast, though advertised in the help text's
admin section, have no registered CommandHandler: for every user, admin or
not, they fall through to the catch-all and produce the generic
unknown-command reply. -/
theorem c10_admin_broadcast_unregistered (comp : NCNComponent) (ids : List Int)
    (u : Update) (h : u.message = some ()) :
    "admin" ∉ registeredCommands ∧ "broadcast" ∉ registeredCommands ∧
    List.IsInfix "/admin - Admin panel (restricted)".data helpText.data ∧
    List.IsInfix "/broadcast - Send announcement (admin only)".data helpText.data ∧
    handleCommand comp ids "admin" u = .ok ⟨unknownText, [], .reply⟩ ∧
    handleCommand comp ids "broadcast" u = .ok ⟨unknownText, [], .reply⟩ := by
  refine ⟨by decide, by decide, by decide, by decide, ?_, ?_⟩ <;>
    simp [handleCommand, commandDispatch, commandHandlers, lookupKey, runHandler,
      unknownHandler, h]

/-- Witness for C10 with an allow-listed caller. -/
theorem c10_witness :
    handleCommand defaultNCN [7] "admin" (msgUpdate someUser) =
      .ok ⟨unknownText, [], .reply⟩ :=
  (c10_admin_broadcast_unregistered defaultNCN [7] (msgUpdate someUser) rfl).2.2.2.2.1
